import Mathlib

/-!
Verification of the variation-instantiation data model of
`src/yival/schemas/experiment_config.py`.

The embedding models Python runtime values by the inductive `PyVal`,
Python exceptions raised during instantiation by `InstErr`, and the
process-wide `CLASS_REGISTRY` by an association list from type names to
constructor capabilities.  The source distinguishes its failure modes by
raise site and message (both are Python `ValueError`s; the spec names
them `TypeCoercionError` and `UnsupportedValueTypeError`); the embedding
mirrors the two sites with distinct constructors.
-/

set_option autoImplicit false

/-- Model of a Python runtime value as far as this module manipulates
them: primitives, `None`, lists, string-keyed mappings, and instances of
custom classes (recorded as class name plus the keyword arguments the
constructor received). -/
inductive PyVal where
  | vNone : PyVal
  | vBool (b : Bool) : PyVal
  | vInt (n : Int) : PyVal
  | vFloat (q : Rat) : PyVal
  | vStr (s : String) : PyVal
  | vList (xs : List PyVal) : PyVal
  | vDict (entries : List (String × PyVal)) : PyVal
  | vObj (cls : String) (kwargs : List (String × PyVal)) : PyVal

/-- Errors raised by `WrapperVariation.instantiate`.  `typeCoercion`
models the exception escaping a failed primitive conversion (the spec
taxonomy calls it `TypeCoercionError`); `typeError` models a Python
`TypeError` from keyword-argument unpacking; `unsupportedValueType`
models the explicit `raise ValueError(f"Unsupported value_type: ...")`
of the final branch (the spec taxonomy: `UnsupportedValueTypeError`). -/
inductive InstErr where
  | typeCoercion (msg : String) : InstErr
  | typeError (msg : String) : InstErr
  | unsupportedValueType (msg : String) : InstErr
deriving Repr, DecidableEq

/-- A constructor capability stored in the registry: takes keyword
arguments, returns a constructed value or raises. -/
abbrev Ctor := List (String × PyVal) → Except InstErr PyVal

/-- The process-wide extension registry: a mapping from type-name to
constructor.  Theorems quantify over its contents, since the host
application may populate it. -/
abbrev Registry := List (String × Ctor)

/-- `CLASS_REGISTRY` as the source ships it: empty. -/
def CLASS_REGISTRY : Registry := []

/-! ### The four primitive conversions

`eval(self.value_type)` in the source evaluates the tag string, which at
that point is guarded to be one of the four literal names, and yields
the corresponding Python builtin.  The builtins `str`, `int`, `float`
and `bool` are modelled below on the `PyVal` universe. -/

/-- Value of a (little-endian-read) digit list, most significant first,
like the decimal reading of Python literals. -/
def digitsVal (ds : List Char) : Nat :=
  ds.foldl (fun a c => a * 10 + (c.toNat - 48)) 0

/-- Whitespace stripping performed by Python `int()` / `float()` on
string arguments, on the character-list view. -/
def trimChars (cs : List Char) : List Char :=
  ((cs.dropWhile Char.isWhitespace).reverse.dropWhile Char.isWhitespace).reverse

/-- Decimal integer literal: optional sign, then a nonempty digit run.
(Python additionally accepts underscore digit grouping, elided here.) -/
def parseIntLit (cs : List Char) : Option Int :=
  match cs with
  | '-' :: ds =>
    if !ds.isEmpty && ds.all Char.isDigit then some (-(digitsVal ds : Int)) else none
  | '+' :: ds =>
    if !ds.isEmpty && ds.all Char.isDigit then some ((digitsVal ds : Int)) else none
  | ds =>
    if !ds.isEmpty && ds.all Char.isDigit then some ((digitsVal ds : Int)) else none

/-- Unsigned decimal float body: digits, optionally a dot and further
digits, at least one digit overall (`5`, `5.`, `.5`, `3.25`).  The value
is exact as a rational.  (Exponent forms and `inf` / `nan` are elided:
no behaviour verified here depends on them.) -/
def parseDecBody (cs : List Char) : Option Rat :=
  match cs.dropWhile Char.isDigit with
  | [] =>
    if (cs.takeWhile Char.isDigit).isEmpty then none
    else some ((digitsVal (cs.takeWhile Char.isDigit) : Int) : Rat)
  | '.' :: fr =>
    if fr.all Char.isDigit then
      if (cs.takeWhile Char.isDigit).isEmpty && fr.isEmpty then none
      else some ((digitsVal (cs.takeWhile Char.isDigit) : Rat) +
        (digitsVal fr : Rat) / ((10 : Rat) ^ fr.length))
    else none
  | _ => none

/-- Signed decimal float literal. -/
def parseFloatLit (cs : List Char) : Option Rat :=
  match cs with
  | '-' :: body => (parseDecBody body).map Neg.neg
  | '+' :: body => parseDecBody body
  | body => parseDecBody body

/-- Python truthiness, as `bool()` computes it: empty containers, empty
strings, zero numbers and `None` are falsy, everything else truthy. -/
def pyTruthy : PyVal → Bool
  | .vNone => false
  | .vBool b => b
  | .vInt n => decide (n ≠ 0)
  | .vFloat q => decide (q ≠ 0)
  | .vStr s => !(s == "")
  | .vList xs => !xs.isEmpty
  | .vDict es => !es.isEmpty
  | .vObj _ _ => true

/-- Python `str()` of a value.  It never raises.  On numbers and
primitives it follows Python; the textual rendering of containers and
objects is modelled abstractly (deterministic, but not Python repr
syntax), since no verified behaviour inspects that text. -/
def pyStr : PyVal → String
  | .vNone => "None"
  | .vBool b => if b then "True" else "False"
  | .vInt n => toString n
  | .vFloat q => toString q.num ++ "/" ++ toString q.den
  | .vStr s => s
  | .vList xs => "list of length " ++ toString xs.length
  | .vDict es => "dict of size " ++ toString es.length
  | .vObj cls _ => cls ++ " object"

/-- Python `str` builtin lifted to the instantiation result type. -/
def pyStrFn (v : PyVal) : Except InstErr PyVal :=
  .ok (.vStr (pyStr v))

/-- Python `int` builtin: identity on ints, `False`/`True` to `0`/`1`,
truncation toward zero on floats, whitespace-stripped literal parse on
strings, `TypeError`/`ValueError` (modelled as coercion failure)
otherwise. -/
def pyIntFn : PyVal → Except InstErr PyVal
  | .vInt n => .ok (.vInt n)
  | .vBool b => .ok (.vInt (if b then 1 else 0))
  | .vFloat q => .ok (.vInt (q.num.tdiv (q.den : Int)))
  | .vStr s =>
    match parseIntLit (trimChars s.data) with
    | some n => .ok (.vInt n)
    | none => .error (.typeCoercion "invalid literal for int with base 10")
  | _ => .error (.typeCoercion "int argument must be a string or a number")

/-- Python `float` builtin on the modelled universe. -/
def pyFloatFn : PyVal → Except InstErr PyVal
  | .vFloat q => .ok (.vFloat q)
  | .vInt n => .ok (.vFloat (n : Rat))
  | .vBool b => .ok (.vFloat (if b then 1 else 0))
  | .vStr s =>
    match parseFloatLit (trimChars s.data) with
    | some q => .ok (.vFloat q)
    | none => .error (.typeCoercion "could not convert string to float")
  | _ => .error (.typeCoercion "float argument must be a string or a number")

/-- Python `bool` builtin: truthiness, never raises. -/
def pyBoolFn (v : PyVal) : Except InstErr PyVal :=
  .ok (.vBool (pyTruthy v))

/-- The dispatch the guarded `eval(self.value_type)` amounts to: the
four primitive tag names map to the corresponding builtin; `eval` is
never reached with any other argument, so the table is closed. -/
def pyBuiltin : String → Option (PyVal → Except InstErr PyVal)
  | "str" => some pyStrFn
  | "int" => some pyIntFn
  | "float" => some pyFloatFn
  | "bool" => some pyBoolFn
  | _ => none

/-- `WrapperVariation.instantiate`, with `self.value_type` and
`self.value` passed explicitly and the process-wide registry made an
explicit argument.  Mirrors the source branch for branch: primitive tags
first, then the registry (unpacking `value` as keyword arguments), else
`raise ValueError(f"Unsupported value_type: ...")`. -/
def instantiate (reg : Registry) (value_type : String) (value : PyVal) :
    Except InstErr PyVal :=
  if value_type ∈ (["str", "int", "float", "bool"] : List String) then
    match pyBuiltin value_type with
    | some f => f value
    | none => .error (.typeCoercion "unreachable: guarded tag")
  else
    match reg.lookup value_type with
    | some ctor =>
      match value with
      | .vDict kwargs => ctor kwargs
      | _ => .error (.typeError "argument after ** must be a mapping")
    | none => .error (.unsupportedValueType ("Unsupported value_type: " ++ value_type))

/-! ### The dataclasses -/

/-- `WrapperVariation`: declared `value_type` and `value`, the derived
`instantiated_value` (in the source a `field(init=False)` filled by
`__post_init__`), and the optional `variation_id`. -/
structure WrapperVariation where
  value_type : String
  value : PyVal
  instantiated_value : PyVal
  variation_id : Option String

/-- Construction of a `WrapperVariation`: the caller supplies
`value_type`, `value` and `variation_id` only; `__post_init__` derives
`instantiated_value` by calling `instantiate`, and a raised error aborts
construction. -/
def WrapperVariation.construct (reg : Registry) (value_type : String)
    (value : PyVal) (variation_id : Option String) :
    Except InstErr WrapperVariation :=
  match instantiate reg value_type value with
  | .ok iv => .ok ⟨value_type, value, iv, variation_id⟩
  | .error e => .error e

/-- A `WrapperVariation` as produced by construction under registry
`reg`: its derived field agrees with `instantiate` on its declared
fields. -/
def WrapperVariation.wellFormed (reg : Registry) (wv : WrapperVariation) : Prop :=
  instantiate reg wv.value_type wv.value = .ok wv.instantiated_value

/-- `None` / string view of an optional identifier, as `dataclasses.asdict`
serializes it. -/
def optStrToPy : Option String → PyVal
  | none => .vNone
  | some s => .vStr s

/-- Reading an optional identifier back from its serialized form. -/
def pyOptStr : PyVal → Option String
  | .vStr s => some s
  | _ => none

/-- `WrapperVariation.asdict`: the structural mapping
`dataclasses.asdict` produces, one entry per declared field (the derived
`instantiated_value` included). -/
def WrapperVariation.asdict (wv : WrapperVariation) : PyVal :=
  .vDict [("value_type", .vStr wv.value_type),
          ("value", wv.value),
          ("instantiated_value", wv.instantiated_value),
          ("variation_id", optStrToPy wv.variation_id)]

/-- Modelled from the spec: reconstruction of a `WrapperVariation` from
its structural mapping (the source defines only the `asdict` direction).
Per the spec, the declared fields `value_type`, `value` and
`variation_id` are read out of the mapping and passed to the dataclass
constructor, so `instantiated_value` is re-derived, never deserialized. -/
def WrapperVariation.fromDict (reg : Registry) (d : PyVal) :
    Except InstErr WrapperVariation :=
  match d with
  | .vDict entries =>
    match entries.lookup "value_type", entries.lookup "value",
          entries.lookup "variation_id" with
    | some (.vStr t), some v, some i =>
      WrapperVariation.construct reg t v (pyOptStr i)
    | _, _, _ => .error (.typeError "malformed WrapperVariation mapping")
  | _ => .error (.typeError "WrapperVariation mapping expected")

/-- `WrapperConfig`: a named list of variations. -/
structure WrapperConfig where
  name : String
  variations : List WrapperVariation

/-- `WrapperConfig.asdict`: `dataclasses.asdict` recurses into the
nested dataclasses. -/
def WrapperConfig.asdict (wc : WrapperConfig) : PyVal :=
  .vDict [("name", .vStr wc.name),
          ("variations", .vList (wc.variations.map WrapperVariation.asdict))]

/-- Modelled from the spec: reconstruction of a `WrapperConfig` from its
structural mapping, re-deriving every variation. -/
def WrapperConfig.fromDict (reg : Registry) (d : PyVal) :
    Except InstErr WrapperConfig :=
  match d with
  | .vDict entries =>
    match entries.lookup "name", entries.lookup "variations" with
    | some (.vStr n), some (.vList vs) =>
      match vs.mapM (WrapperVariation.fromDict reg) with
      | .ok ws => .ok ⟨n, ws⟩
      | .error e => .error e
    | _, _ => .error (.typeError "malformed WrapperConfig mapping")
  | _ => .error (.typeError "WrapperConfig mapping expected")

/-! ### `ExperimentConfig` and its collaborator types

`DatasetConfig`, `BaseWrapperConfig`, `EvaluatorConfig` and
`ComparisonEvaluatorConfig` are imported by the source from sibling
modules not present here.  Modelled from the spec: they are opaque to
this module beyond exposing a stable name/identifier, so each is a
record carrying that identifier. -/

/-- Modelled from the spec: dataset configuration, opaque here. -/
structure DatasetConfig where
  source_name : String

/-- Modelled from the spec: wrapper runtime configuration, opaque here. -/
structure BaseWrapperConfig where
  name : String

/-- Modelled from the spec: evaluator configuration, opaque here. -/
structure EvaluatorConfig where
  name : String

/-- Modelled from the spec: comparison-evaluator configuration, opaque
here. -/
structure ComparisonEvaluatorConfig where
  name : String

/-- `Union[EvaluatorConfig, ComparisonEvaluatorConfig]`. -/
inductive EvalCfg where
  | ev (c : EvaluatorConfig) : EvalCfg
  | cmp (c : ComparisonEvaluatorConfig) : EvalCfg

/-- `OutputConfig`: a path and a formatter capability. -/
structure OutputConfig where
  path : String
  formatter : PyVal → PyVal

/-- `HumanRatingConfig`: aspects to rate and a shared scale. -/
structure HumanRatingConfig where
  aspects : List String
  scale : Rat × Rat

/-- Validation failures an `ExperimentConfig` constructor could raise.
The source constructor raises none; the type makes failure expressible
so that its absence is a theorem rather than a typing accident. -/
inductive ConfigErr where
  | validationError (msg : String) : ConfigErr
deriving Repr, DecidableEq

/-- `ExperimentConfig`: the full declarative description of a run.
`output_parser_name` renders the source field `output_parser`. -/
structure ExperimentConfig where
  description : String
  variations : List WrapperConfig
  dataset : DatasetConfig
  wrapper_configs : Option (List BaseWrapperConfig)
  combinations_to_run : Option (List (String × PyVal))
  evaluators : Option (List EvalCfg)
  output : Option OutputConfig
  human_rating_configs : List HumanRatingConfig
  existing_experiment_path : Option String
  version : Option String
  output_parser_name : Option String
  metadata : List (String × PyVal)

/-- The generated dataclass constructor of `ExperimentConfig`.  The
source defines no `__post_init__` and no validator, so construction
stores the arguments verbatim and never fails. -/
def ExperimentConfig.construct (description : String)
    (variations : List WrapperConfig) (dataset : DatasetConfig)
    (wrapper_configs : Option (List BaseWrapperConfig))
    (combinations_to_run : Option (List (String × PyVal)))
    (evaluators : Option (List EvalCfg)) (output : Option OutputConfig)
    (human_rating_configs : List HumanRatingConfig)
    (existing_experiment_path : Option String) (version : Option String)
    (output_parser_name : Option String) (metadata : List (String × PyVal)) :
    Except ConfigErr ExperimentConfig :=
  .ok ⟨description, variations, dataset, wrapper_configs, combinations_to_run,
       evaluators, output, human_rating_configs, existing_experiment_path,
       version, output_parser_name, metadata⟩

/-! ### The spec side: natural parses and primitive typing -/

/-- Modelled from the spec: the natural parse of a literal at a
primitive tag.  A string literal of an integer parses to that integer,
a decimal literal to that number, the boolean literals to the boolean
they name, and any string is a valid `str` literal denoting itself. -/
def naturalParse : String → PyVal → Option PyVal
  | "str", .vStr s => some (.vStr s)
  | "int", .vStr s => (parseIntLit s.data).map PyVal.vInt
  | "float", .vStr s => (parseFloatLit s.data).map PyVal.vFloat
  | "bool", .vStr s =>
    if s = "true" ∨ s = "True" then some (.vBool true)
    else if s = "false" ∨ s = "False" then some (.vBool false)
    else none
  | _, _ => none

/-- Whether a value is of the primitive type a tag names. -/
def primHasType : String → PyVal → Bool
  | "str", .vStr _ => true
  | "int", .vInt _ => true
  | "float", .vFloat _ => true
  | "bool", .vBool _ => true
  | _, _ => false

/-- Whether an instantiation error is a coercion failure from a
primitive conversion (the spec taxonomy: a `TypeCoercionError`). -/
def InstErr.isCoercion : InstErr → Bool
  | .typeCoercion _ => true
  | _ => false

/-! ### Helper lemmas: whitespace stripping on literals -/

theorem dropWhile_eq_self_of_all_not (p : Char → Bool) (cs : List Char)
    (h : cs.all (fun c => !(p c)) = true) : cs.dropWhile p = cs := by
  cases cs with
  | nil => rfl
  | cons a l =>
    simp only [List.all_cons, Bool.and_eq_true, Bool.not_eq_true'] at h
    simp [List.dropWhile_cons, h.1]

theorem trimChars_eq_self (cs : List Char)
    (h : cs.all (fun c => !(c.isWhitespace)) = true) : trimChars cs = cs := by
  unfold trimChars
  rw [dropWhile_eq_self_of_all_not _ _ h]
  rw [dropWhile_eq_self_of_all_not _ _ (by simpa using h)]
  exact List.reverse_reverse cs

theorem not_ws_of_digit (c : Char) (h : c.isDigit = true) : c.isWhitespace = false := by
  by_contra hws
  rw [Bool.not_eq_false] at hws
  have hc : ((c = ' ' ∨ c = '\t') ∨ c = '\r') ∨ c = '\n' := by
    simpa [Char.isWhitespace] using hws
  rcases hc with ((h1 | h1) | h1) | h1 <;> subst h1 <;> exact absurd h (by decide)

theorem all_not_ws_of_all_digit (ds : List Char) (h : ds.all Char.isDigit = true) :
    ds.all (fun c => !(c.isWhitespace)) = true := by
  rw [List.all_eq_true] at h ⊢
  intro c hc
  simp [not_ws_of_digit c (h c hc)]

theorem takeWhile_all_not_ws (cs : List Char) :
    (cs.takeWhile Char.isDigit).all (fun c => !(c.isWhitespace)) = true := by
  rw [List.all_eq_true]
  intro c hc
  simp [not_ws_of_digit c (List.mem_takeWhile_imp hc)]

theorem intLit_all_not_ws (cs : List Char) (n : Int) (h : parseIntLit cs = some n) :
    cs.all (fun c => !(c.isWhitespace)) = true := by
  unfold parseIntLit at h
  split at h
  case _ ds =>
    split at h
    case isTrue hcond =>
      rw [Bool.and_eq_true] at hcond
      simp [List.all_cons, all_not_ws_of_all_digit ds hcond.2]
    case isFalse => exact absurd h (by simp)
  case _ ds =>
    split at h
    case isTrue hcond =>
      rw [Bool.and_eq_true] at hcond
      simp [List.all_cons, all_not_ws_of_all_digit ds hcond.2]
    case isFalse => exact absurd h (by simp)
  case _ hne1 hne2 =>
    split at h
    case isTrue hcond =>
      rw [Bool.and_eq_true] at hcond
      exact all_not_ws_of_all_digit cs hcond.2
    case isFalse => exact absurd h (by simp)

theorem decBody_all_not_ws (cs : List Char) (q : Rat) (h : parseDecBody cs = some q) :
    cs.all (fun c => !(c.isWhitespace)) = true := by
  have hsplit : cs.takeWhile Char.isDigit ++ cs.dropWhile Char.isDigit = cs :=
    List.takeWhile_append_dropWhile Char.isDigit cs
  unfold parseDecBody at h
  split at h
  case _ heq =>
    rw [← hsplit, heq, List.append_nil]
    exact takeWhile_all_not_ws cs
  case _ fr heq =>
    split at h
    case isTrue hfr =>
      rw [← hsplit, heq, List.all_append, List.all_cons]
      simp [takeWhile_all_not_ws cs, all_not_ws_of_all_digit fr hfr]
    case isFalse => exact absurd h (by simp)
  case _ => exact absurd h (by simp)

theorem floatLit_all_not_ws (cs : List Char) (q : Rat) (h : parseFloatLit cs = some q) :
    cs.all (fun c => !(c.isWhitespace)) = true := by
  unfold parseFloatLit at h
  split at h
  case _ body =>
    cases hb : parseDecBody body with
    | none => rw [hb] at h; exact absurd h (by simp)
    | some r => simp [List.all_cons, decBody_all_not_ws body r hb]
  case _ body =>
    simp [List.all_cons, decBody_all_not_ws body q h]
  case _ hne1 hne2 => exact decBody_all_not_ws cs q h

/-! ### Helper lemmas: reduction of `instantiate` at the four tags -/

theorem instantiate_str (reg : Registry) (v : PyVal) :
    instantiate reg "str" v = pyStrFn v := rfl

theorem instantiate_int (reg : Registry) (v : PyVal) :
    instantiate reg "int" v = pyIntFn v := rfl

theorem instantiate_float (reg : Registry) (v : PyVal) :
    instantiate reg "float" v = pyFloatFn v := rfl

theorem instantiate_bool (reg : Registry) (v : PyVal) :
    instantiate reg "bool" v = pyBoolFn v := rfl

theorem pyIntFn_error (v : PyVal) (e : InstErr) (h : pyIntFn v = .error e) :
    e.isCoercion = true := by
  cases v <;> simp only [pyIntFn] at h
  case vStr s =>
    split at h
    · exact absurd h (by simp)
    · cases Except.error.inj h; rfl
  all_goals first
    | (cases Except.error.inj h; rfl)
    | exact absurd h (by simp)

theorem pyFloatFn_error (v : PyVal) (e : InstErr) (h : pyFloatFn v = .error e) :
    e.isCoercion = true := by
  cases v <;> simp only [pyFloatFn] at h
  case vStr s =>
    split at h
    · exact absurd h (by simp)
    · cases Except.error.inj h; rfl
  all_goals first
    | (cases Except.error.inj h; rfl)
    | exact absurd h (by simp)

/-! ### The claims -/

/-- C1 (counterexample): the claim fails at the primitive tag `bool`
with the valid boolean literal `"false"`: the code applies Python
`bool()`, so `instantiate("bool", "false")` yields `True`, while the
natural parse of `"false"` is `False`. -/
theorem instantiate_bool_false_is_truthy_counterexample :
    instantiate CLASS_REGISTRY "bool" (.vStr "false") = .ok (.vBool true) ∧
    naturalParse "bool" (.vStr "false") = some (.vBool false) ∧
    PyVal.vBool true ≠ PyVal.vBool false :=
  ⟨rfl, rfl, by simp⟩

/-- C1 (amended): for the primitive tags `str`, `int` and `float` and
every valid literal `v`, `instantiate(t, v)` returns a value of the
corresponding primitive type equal to the natural parse of `v`; for
`bool` the code instead returns the Python truthiness of the value (see
the counterexample and C9), so `bool` is excluded here. -/
theorem instantiate_matches_natural_parse_except_bool (reg : Registry)
    (t : String) (v w : PyVal)
    (ht : t ∈ (["str", "int", "float"] : List String))
    (hp : naturalParse t v = some w) :
    instantiate reg t v = .ok w ∧ primHasType t w = true := by
  fin_cases ht
  · cases v <;> simp only [naturalParse] at hp
    case vStr s =>
      cases hp
      exact ⟨rfl, rfl⟩
    all_goals exact absurd hp (by simp)
  · cases v <;> simp only [naturalParse] at hp
    case vStr s =>
      cases hn : parseIntLit s.data with
      | none => rw [hn] at hp; exact absurd hp (by simp)
      | some n =>
        rw [hn] at hp
        simp only [Option.map_some'] at hp
        cases hp
        refine ⟨?_, rfl⟩
        rw [instantiate_int]
        simp only [pyIntFn]
        rw [trimChars_eq_self s.data (intLit_all_not_ws s.data n hn), hn]
    all_goals exact absurd hp (by simp)
  · cases v <;> simp only [naturalParse] at hp
    case vStr s =>
      cases hq : parseFloatLit s.data with
      | none => rw [hq] at hp; exact absurd hp (by simp)
      | some q =>
        rw [hq] at hp
        simp only [Option.map_some'] at hp
        cases hp
        refine ⟨?_, rfl⟩
        rw [instantiate_float]
        simp only [pyFloatFn]
        rw [trimChars_eq_self s.data (floatLit_all_not_ws s.data q hq), hq]
    all_goals exact absurd hp (by simp)

/-- C1 (witness): `instantiate("int", "42")` yields the int `42`, the
natural parse of `"42"`. -/
theorem instantiate_matches_natural_parse_witness :
    naturalParse "int" (.vStr "42") = some (.vInt 42) ∧
    instantiate CLASS_REGISTRY "int" (.vStr "42") = .ok (.vInt 42) ∧
    primHasType "int" (.vInt 42) = true :=
  ⟨rfl,
   (instantiate_matches_natural_parse_except_bool CLASS_REGISTRY "int" (.vStr "42")
     (.vInt 42) (by decide) rfl).1,
   (instantiate_matches_natural_parse_except_bool CLASS_REGISTRY "int" (.vStr "42")
     (.vInt 42) (by decide) rfl).2⟩

/-- C2: every failure of `instantiate` at a primitive tag is a type
coercion error (the exception escaping the primitive constructor, which
the spec taxonomy names `TypeCoercionError`); in particular
`instantiate("int", "not-a-number")` fails with exactly that error. -/
theorem instantiate_primitive_failure_is_type_coercion (reg : Registry)
    (t : String) (v : PyVal) (e : InstErr)
    (ht : t ∈ (["str", "int", "float", "bool"] : List String))
    (he : instantiate reg t v = .error e) :
    e.isCoercion = true ∧
    instantiate CLASS_REGISTRY "int" (.vStr "not-a-number") =
      .error (.typeCoercion "invalid literal for int with base 10") := by
  refine ⟨?_, rfl⟩
  fin_cases ht
  · rw [instantiate_str] at he; exact absurd he (by simp [pyStrFn])
  · rw [instantiate_int] at he; exact pyIntFn_error v e he
  · rw [instantiate_float] at he; exact pyFloatFn_error v e he
  · rw [instantiate_bool] at he; exact absurd he (by simp [pyBoolFn])

/-- C2 (witness): `instantiate("int", "abc")` fails, and the error is a
coercion error. -/
theorem instantiate_primitive_failure_witness :
    ("int" ∈ (["str", "int", "float", "bool"] : List String)) ∧
    (InstErr.typeCoercion "invalid literal for int with base 10").isCoercion = true :=
  ⟨by decide,
   (instantiate_primitive_failure_is_type_coercion CLASS_REGISTRY "int" (.vStr "abc")
     (.typeCoercion "invalid literal for int with base 10") (by decide) rfl).1⟩

/-- C3: for a `value_type` that is neither one of the four primitive
tags nor registered, `instantiate` fails, for every value payload, with
the unsupported-value-type error whose message names the unrecognized
tag. -/
theorem instantiate_unsupported_value_type (reg : Registry) (t : String)
    (v : PyVal) (ht : t ∉ (["str", "int", "float", "bool"] : List String))
    (hr : reg.lookup t = none) :
    instantiate reg t v =
      .error (.unsupportedValueType ("Unsupported value_type: " ++ t)) := by
  unfold instantiate
  rw [if_neg ht, hr]

/-- C3 (witness): `instantiate("UnregisteredType", dict)` under the
shipped (empty) registry fails with the unsupported-value-type error
naming `UnregisteredType`. -/
theorem instantiate_unsupported_value_type_witness :
    ("UnregisteredType" ∉ (["str", "int", "float", "bool"] : List String)) ∧
    CLASS_REGISTRY.lookup "UnregisteredType" = none ∧
    instantiate CLASS_REGISTRY "UnregisteredType" (.vDict []) =
      .error (.unsupportedValueType "Unsupported value_type: UnregisteredType") :=
  ⟨by decide, rfl,
   instantiate_unsupported_value_type CLASS_REGISTRY "UnregisteredType" (.vDict [])
     (by decide) rfl⟩

/-- C4: for a non-primitive name registered with constructor `C`,
`instantiate(n, m)` with a mapping `m` invokes `C` with `m` as keyword
arguments and returns its result unchanged. -/
theorem instantiate_registry_invokes_constructor (reg : Registry) (n : String)
    (C : Ctor) (m : List (String × PyVal))
    (hn : n ∉ (["str", "int", "float", "bool"] : List String))
    (hr : reg.lookup n = some C) :
    instantiate reg n (.vDict m) = C m := by
  unfold instantiate
  rw [if_neg hn, hr]

/-- C4 (witness): registering `"Foo"` with a constructor and calling
`instantiate("Foo", {a: 1})` returns that constructor applied to the
keyword arguments. -/
theorem instantiate_registry_invokes_constructor_witness :
    ("Foo" ∉ (["str", "int", "float", "bool"] : List String)) ∧
    instantiate [("Foo", fun kw => Except.ok (PyVal.vObj "Foo" kw))] "Foo"
      (.vDict [("a", .vInt 1)]) =
      (fun kw => Except.ok (PyVal.vObj "Foo" kw)) [("a", PyVal.vInt 1)] :=
  ⟨by decide,
   instantiate_registry_invokes_constructor
     [("Foo", fun kw => Except.ok (PyVal.vObj "Foo" kw))] "Foo"
     (fun kw => Except.ok (PyVal.vObj "Foo" kw)) [("a", .vInt 1)] (by decide) rfl⟩

/-- C5: every successfully constructed `WrapperVariation` carries its
caller-supplied declared fields verbatim, and its `instantiated_value`
equals the result of `instantiate` on its `(value_type, value)` pair;
the constructor takes no `instantiated_value` argument, so the field is
derived, computed once at construction. -/
theorem wrapperVariation_instantiated_value_derived (reg : Registry)
    (t : String) (v : PyVal) (i : Option String) (wv : WrapperVariation)
    (h : WrapperVariation.construct reg t v i = .ok wv) :
    wv.value_type = t ∧ wv.value = v ∧ wv.variation_id = i ∧
    instantiate reg wv.value_type wv.value = .ok wv.instantiated_value := by
  unfold WrapperVariation.construct at h
  split at h
  case _ iv hiv =>
    cases h
    exact ⟨rfl, rfl, rfl, hiv⟩
  case _ => exact absurd h (by simp)

/-- C5 (witness): constructing `WrapperVariation("int", "42")` yields
`instantiated_value = 42`, consistent with `instantiate`. -/
theorem wrapperVariation_instantiated_value_derived_witness :
    WrapperVariation.construct CLASS_REGISTRY "int" (.vStr "42") none =
      .ok ⟨"int", .vStr "42", .vInt 42, none⟩ ∧
    instantiate CLASS_REGISTRY "int" (.vStr "42") = .ok (.vInt 42) :=
  ⟨rfl,
   (wrapperVariation_instantiated_value_derived CLASS_REGISTRY "int" (.vStr "42")
     none ⟨"int", .vStr "42", .vInt 42, none⟩ rfl).2.2.2⟩

/-- C6: round-trip.  For every `WrapperVariation` whose derived field is
consistent with construction (as every constructed one is, by C5),
serializing via `asdict` and reconstructing from the declared fields of
that mapping, re-deriving `instantiated_value`, restores the value
exactly; likewise for a `WrapperConfig` built from such variations. -/
theorem wrapperVariation_asdict_roundtrip (reg : Registry) :
    (∀ wv : WrapperVariation, WrapperVariation.wellFormed reg wv →
      WrapperVariation.fromDict reg wv.asdict = .ok wv) ∧
    (∀ wc : WrapperConfig,
      (∀ wv ∈ wc.variations, WrapperVariation.wellFormed reg wv) →
      WrapperConfig.fromDict reg wc.asdict = .ok wc) := by
  have hvar : ∀ wv : WrapperVariation, WrapperVariation.wellFormed reg wv →
      WrapperVariation.fromDict reg wv.asdict = .ok wv := by
    intro wv hwf
    obtain ⟨t, v, iv, i⟩ := wv
    have hred : WrapperVariation.fromDict reg
        (WrapperVariation.asdict ⟨t, v, iv, i⟩) =
        WrapperVariation.construct reg t v (pyOptStr (optStrToPy i)) := rfl
    have hopt : pyOptStr (optStrToPy i) = i := by cases i <;> rfl
    rw [hred, hopt]
    unfold WrapperVariation.wellFormed at hwf
    unfold WrapperVariation.construct
    rw [hwf]
  refine ⟨hvar, ?_⟩
  intro wc hall
  obtain ⟨n, vars⟩ := wc
  have hm : (vars.map WrapperVariation.asdict).mapM (WrapperVariation.fromDict reg) =
      .ok vars := by
    induction vars with
    | nil => rfl
    | cons a l ih =>
      have ha := hvar a (hall a (by simp))
      have hl := ih (fun wv hwv => hall wv (by simp [hwv]))
      simp only [List.map_cons, List.mapM_cons, ha, hl]
      rfl
  have hred : WrapperConfig.fromDict reg (WrapperConfig.asdict ⟨n, vars⟩) =
      (match (vars.map WrapperVariation.asdict).mapM (WrapperVariation.fromDict reg) with
       | .ok ws => Except.ok (⟨n, ws⟩ : WrapperConfig)
       | .error e => .error e) := rfl
  rw [hred, hm]

/-- C6 (witness): the round trip restores
`WrapperVariation("int", "42")` exactly. -/
theorem wrapperVariation_asdict_roundtrip_witness :
    WrapperVariation.fromDict CLASS_REGISTRY
      (WrapperVariation.asdict ⟨"int", .vStr "42", .vInt 42, none⟩) =
      .ok ⟨"int", .vStr "42", .vInt 42, none⟩ :=
  (wrapperVariation_asdict_roundtrip CLASS_REGISTRY).1
    ⟨"int", .vStr "42", .vInt 42, none⟩ rfl

/-- C7 (counterexample): constructing an `ExperimentConfig` with an
empty `variations` list succeeds: the dataclass performs no validation,
so the empty declaration is accepted, not rejected. -/
theorem experimentConfig_empty_variations_counterexample :
    ExperimentConfig.construct "demo" [] ⟨"ds"⟩ none none none none [] none none
      none [] =
    .ok ⟨"demo", [], ⟨"ds"⟩, none, none, none, none, [], none, none, none, []⟩ := rfl

/-- C7 (amended): `ExperimentConfig` construction performs no
validation: with an empty `variations` list (and any other arguments) it
succeeds and stores the arguments verbatim; rejecting empty variations
is left to the orchestrator consuming the config. -/
theorem experimentConfig_construct_never_fails (description : String)
    (dataset : DatasetConfig) (wrapper_configs : Option (List BaseWrapperConfig))
    (combinations_to_run : Option (List (String × PyVal)))
    (evaluators : Option (List EvalCfg)) (output : Option OutputConfig)
    (human_rating_configs : List HumanRatingConfig)
    (existing_experiment_path : Option String) (version : Option String)
    (output_parser_name : Option String) (metadata : List (String × PyVal)) :
    ExperimentConfig.construct description [] dataset wrapper_configs
      combinations_to_run evaluators output human_rating_configs
      existing_experiment_path version output_parser_name metadata =
    .ok ⟨description, [], dataset, wrapper_configs, combinations_to_run, evaluators,
         output, human_rating_configs, existing_experiment_path, version,
         output_parser_name, metadata⟩ := rfl

/-- C8: at each of the four primitive tags, the result of `instantiate`
is produced by a fixed, closed per-tag dispatch table of pure parsers
applied to the value: the entry depends only on the tag, and neither the
registry contents nor any capability stored in it can influence the
result, so no value payload reaches anything but the tag's parser. -/
theorem instantiate_primitive_closed_dispatch (reg : Registry) (t : String)
    (v : PyVal) (ht : t ∈ (["str", "int", "float", "bool"] : List String)) :
    ∃ f, pyBuiltin t = some f ∧ instantiate reg t v = f v := by
  fin_cases ht <;> exact ⟨_, rfl, rfl⟩

/-- C8 (witness): at tag `int` the dispatch equation holds concretely. -/
theorem instantiate_primitive_closed_dispatch_witness :
    ("int" ∈ (["str", "int", "float", "bool"] : List String)) ∧
    (∃ f, pyBuiltin "int" = some f ∧
      instantiate CLASS_REGISTRY "int" (.vStr "7") = f (.vStr "7")) :=
  ⟨by decide,
   instantiate_primitive_closed_dispatch CLASS_REGISTRY "int" (.vStr "7") (by decide)⟩

/-- C9: for `value_type = "bool"` the code applies Python `bool()`,
which is truthiness, not boolean parsing: every non-empty string yields
`True` (in particular `"false"` does) and the empty string yields
`False`. -/
theorem instantiate_bool_is_python_truthiness (reg : Registry) (s : String) :
    instantiate reg "bool" (.vStr s) = .ok (.vBool (!(s == ""))) ∧
    instantiate reg "bool" (.vStr "false") = .ok (.vBool true) ∧
    instantiate reg "bool" (.vStr "") = .ok (.vBool false) :=
  ⟨rfl, rfl, rfl⟩

/-- C10: the primitive branch takes precedence over the extension
registry: registering any constructor under one of the four primitive
tag names never changes the result of `instantiate` at that tag — the
result is the one computed over the shipped empty registry, where no
constructor exists to be invoked. -/
theorem instantiate_primitive_shadows_registry (reg : Registry) (C : Ctor)
    (t : String) (v : PyVal)
    (ht : t ∈ (["str", "int", "float", "bool"] : List String)) :
    instantiate ((t, C) :: reg) t v = instantiate CLASS_REGISTRY t v := by
  fin_cases ht <;> rfl

/-- C10 (witness): a constructor registered under `"bool"` is ignored. -/
theorem instantiate_primitive_shadows_registry_witness :
    ("bool" ∈ (["str", "int", "float", "bool"] : List String)) ∧
    instantiate [("bool", fun kw => Except.ok (PyVal.vObj "Bool" kw))] "bool"
      (.vStr "x") = instantiate CLASS_REGISTRY "bool" (.vStr "x") :=
  ⟨by decide,
   instantiate_primitive_shadows_registry [] (fun kw => Except.ok (PyVal.vObj "Bool" kw))
     "bool" (.vStr "x") (by decide)⟩
